import Mathlib

/-!
# Verification of the `anthropic-sdk` message data model

Shallow embedding of `src/anthropic-sdk/src/types/message.rs`: the value
types, the serde-derived JSON encoders/decoders (with serde's documented
semantics for `untagged`, internally-tagged (`tag = "type"`),
`flatten`, `rename_all = "lowercase"` / `"snake_case"` and
`skip_serializing_if = "Option::is_none"` attributes), the request
builder, and the error taxonomy.
-/

namespace AnthropicSdk

/-- JSON values, modelling `serde_json::Value`.  Objects are ordered
association lists (serde serializes struct fields in declaration order);
numbers are modelled as exact rationals. -/
inductive Json where
  | null : Json
  | bool : Bool → Json
  | num  : Rat → Json
  | str  : String → Json
  | arr  : List Json → Json
  | obj  : List (String × Json) → Json

/-- First value bound to `k` in a JSON object's field list (serde's derived
deserializers read each known field once; our inputs have no duplicate keys). -/
def jlookup (kvs : List (String × Json)) (k : String) : Option Json :=
  match kvs with
  | [] => none
  | (k', v) :: rest => if k' = k then some v else jlookup rest k

/-- Top-level keys of a JSON object (empty for non-objects). -/
def Json.keys : Json → List String
  | .obj kvs => kvs.map Prod.fst
  | _ => []

/-- Value of a top-level key of a JSON object (`none` for non-objects or
absent keys). -/
def Json.getKey : Json → String → Option Json
  | .obj kvs, k => jlookup kvs k
  | _, _ => none

/-! ## Error taxonomy -/

/-- `MessageError` (message.rs lines 10-16): the two error kinds of the
Messages API contract. -/
inductive MessageError where
  | RequestFailed : String → MessageError
  | ApiError : String → MessageError
deriving DecidableEq, Repr

/-- `impl From<String> for MessageError` (message.rs lines 18-22). -/
def MessageError.fromString (error : String) : MessageError :=
  MessageError.ApiError error

/-- Decode-time failures.  In the code these are `serde_json::Error` values
raised by the serde-derived deserializers; this type records the structured
content of those errors (the unrecognized tag, the missing field, the
mismatched type, or the name of the untagged enum no variant of which
matched). -/
inductive DecodeError where
  | unknownVariant (tag : String)
  | missingField (field : String)
  | invalidType (expected : String)
  | untaggedNoMatch (enumName : String)
deriving DecidableEq, Repr

/-- Classification of an error surfaced to a caller, used to state that
decode failures are distinguishable from both `MessageError` kinds. -/
inductive ErrorKind where
  | requestFailed
  | apiError
  | decodeFailure
deriving DecidableEq, Repr

def MessageError.kind : MessageError → ErrorKind
  | .RequestFailed _ => .requestFailed
  | .ApiError _ => .apiError

/-- Every decode failure is a `serde_json::Error` in the code, a type
disjoint from `MessageError`; its kind is therefore uniformly distinct. -/
def DecodeError.kind : DecodeError → ErrorKind :=
  fun _ => .decodeFailure

/-! ## Value types (message.rs lines 153-292) -/

/-- `Role` (lines 164-169): `#[serde(rename_all = "lowercase")]`. -/
inductive Role where
  | User
  | Assistant
deriving DecidableEq, Repr

/-- `ImageSource` (lines 207-216); `type_` is renamed to `"type"` on the wire. -/
structure ImageSource where
  type_ : String
  media_type : String
  data : String
deriving DecidableEq, Repr

/-- `ContentBlock` (lines 182-204): internally tagged union, `tag = "type"`,
variants renamed `"text"`, `"image"`, `"tool_use"`, `"tool_result"`.
`ToolUse.input` is an arbitrary `serde_json::Value`. -/
inductive ContentBlock where
  | Text (text : String)
  | Image (source : ImageSource)
  | ToolUse (id : String) (name : String) (input : Json)
  | ToolResult (tool_use_id : String) (content : String)

/-- `MessageContent` (lines 172-179): `#[serde(untagged)]` union of two
struct variants, each with the single field `content`. -/
inductive MessageContent where
  | Text (content : String)
  | Blocks (content : List ContentBlock)

/-- `Message` (lines 154-161): `role` plus `#[serde(flatten)] content`. -/
structure Message where
  role : Role
  content : MessageContent

/-- `Message::new_text` (lines 296-303). -/
def Message.new_text (role : Role) (text : String) : Message :=
  { role := role, content := MessageContent.Text text }

/-- `Message::new_blocks` (lines 306-311). -/
def Message.new_blocks (role : Role) (blocks : List ContentBlock) : Message :=
  { role := role, content := MessageContent.Blocks blocks }

/-- `Tool` (lines 219-228); `description` is skipped when `None`. -/
structure Tool where
  name : String
  description : Option String
  input_schema : Json

/-- `ToolChoice` (lines 231-243): tagged by `"type"`, tags `"auto"`, `"any"`, `"tool"`. -/
inductive ToolChoice where
  | Auto
  | Any
  | Tool (name : String)
deriving DecidableEq, Repr

/-- `Metadata` (lines 246-251): `#[serde(flatten)] fields: HashMap<String, String>`,
modelled as an association list of its entries. -/
structure Metadata where
  fields : List (String × String)
deriving DecidableEq, Repr

/-- `StopReason` (lines 276-283): `rename_all = "snake_case"`. -/
inductive StopReason where
  | EndTurn
  | MaxTokens
  | StopSequence
  | ToolUse
deriving DecidableEq, Repr

/-- `Usage` (lines 286-292); `u32` counters modelled as `Nat`. -/
structure Usage where
  input_tokens : Nat
  output_tokens : Nat
deriving DecidableEq, Repr

/-- `CreateMessageResponse` (lines 254-273); `type_` renamed to `"type"`. -/
structure CreateMessageResponse where
  content : List ContentBlock
  id : String
  model : String
  role : Role
  stop_reason : Option StopReason
  stop_sequence : Option String
  type_ : String
  usage : Usage

/-! ## Request parameters and builder (message.rs lines 40-151) -/

/-- `RequiredMessageParams` (lines 42-49). -/
structure RequiredMessageParams where
  model : String
  messages : List Message
  max_tokens : Nat

/-- `CreateMessageParams` (lines 52-87), fields in Rust declaration order.
`u32` is modelled as `Nat`; `f32` fields (`temperature`, `top_p`) are
modelled as exact rationals — the builder only stores them, no arithmetic
is ever performed. -/
structure CreateMessageParams where
  max_tokens : Nat
  messages : List Message
  model : String
  system : Option String := none
  temperature : Option Rat := none
  stop_sequences : Option (List String) := none
  stream : Option Bool := none
  top_k : Option Nat := none
  top_p : Option Rat := none
  tools : Option (List Tool) := none
  tool_choice : Option ToolChoice := none
  metadata : Option Metadata := none

/-- `impl From<RequiredMessageParams> for CreateMessageParams` (lines 89-98):
populate the three required fields, leave the rest at `Default` (unset). -/
def CreateMessageParams.fromRequired (required : RequiredMessageParams) : CreateMessageParams :=
  { model := required.model
    messages := required.messages
    max_tokens := required.max_tokens }

/-- `CreateMessageParams::new` (lines 102-104). -/
def CreateMessageParams.new (required : RequiredMessageParams) : CreateMessageParams :=
  CreateMessageParams.fromRequired required

def CreateMessageParams.with_system (p : CreateMessageParams) (system : String) : CreateMessageParams :=
  { p with system := some system }

def CreateMessageParams.with_temperature (p : CreateMessageParams) (temperature : Rat) : CreateMessageParams :=
  { p with temperature := some temperature }

def CreateMessageParams.with_stop_sequences (p : CreateMessageParams) (stop_sequences : List String) : CreateMessageParams :=
  { p with stop_sequences := some stop_sequences }

def CreateMessageParams.with_stream (p : CreateMessageParams) (stream : Bool) : CreateMessageParams :=
  { p with stream := some stream }

def CreateMessageParams.with_top_k (p : CreateMessageParams) (top_k : Nat) : CreateMessageParams :=
  { p with top_k := some top_k }

def CreateMessageParams.with_top_p (p : CreateMessageParams) (top_p : Rat) : CreateMessageParams :=
  { p with top_p := some top_p }

def CreateMessageParams.with_tools (p : CreateMessageParams) (tools : List Tool) : CreateMessageParams :=
  { p with tools := some tools }

def CreateMessageParams.with_tool_choice (p : CreateMessageParams) (tool_choice : ToolChoice) : CreateMessageParams :=
  { p with tool_choice := some tool_choice }

def CreateMessageParams.with_metadata (p : CreateMessageParams) (metadata : Metadata) : CreateMessageParams :=
  { p with metadata := some metadata }

/-! ## Encoders (serde `Serialize`, derived; fields in declaration order) -/

def encodeRole : Role → Json
  | .User => .str "user"
  | .Assistant => .str "assistant"

def encodeImageSource (s : ImageSource) : Json :=
  .obj [("type", .str s.type_), ("media_type", .str s.media_type), ("data", .str s.data)]

/-- Internally tagged: the `type` tag first, then the variant's fields;
`ToolUse.input` is emitted verbatim. -/
def encodeContentBlock : ContentBlock → Json
  | .Text text =>
      .obj [("type", .str "text"), ("text", .str text)]
  | .Image source =>
      .obj [("type", .str "image"), ("source", encodeImageSource source)]
  | .ToolUse id name input =>
      .obj [("type", .str "tool_use"), ("id", .str id), ("name", .str name), ("input", input)]
  | .ToolResult tool_use_id content =>
      .obj [("type", .str "tool_result"), ("tool_use_id", .str tool_use_id), ("content", .str content)]

/-- The fields contributed by `MessageContent`.  Both struct variants of the
untagged union serialize to a map with the single key `content`: a bare
string for `Text`, an array of tagged block objects for `Blocks`. -/
def messageContentFields : MessageContent → List (String × Json)
  | .Text content => [("content", .str content)]
  | .Blocks content => [("content", .arr (content.map encodeContentBlock))]

def encodeMessageContent (c : MessageContent) : Json :=
  .obj (messageContentFields c)

/-- `Message`: `role`, then the `#[serde(flatten)]`-merged fields of `content`. -/
def encodeMessage (m : Message) : Json :=
  .obj (("role", encodeRole m.role) :: messageContentFields m.content)

/-- `Tool`: `description` is omitted when `None` (`skip_serializing_if`). -/
def encodeTool (t : Tool) : Json :=
  .obj ([("name", .str t.name)]
    ++ (match t.description with
        | none => []
        | some d => [("description", .str d)])
    ++ [("input_schema", t.input_schema)])

def encodeToolChoice : ToolChoice → Json
  | .Auto => .obj [("type", .str "auto")]
  | .Any => .obj [("type", .str "any")]
  | .Tool name => .obj [("type", .str "tool"), ("name", .str name)]

/-- `Metadata`: `#[serde(flatten)]` on `fields` merges every entry directly
into the `Metadata` object itself — no `"fields"` wrapper key. -/
def encodeMetadata (m : Metadata) : Json :=
  .obj (m.fields.map (fun kv => (kv.1, Json.str kv.2)))

/-- Field list contributed by an optional struct field carrying
`#[serde(skip_serializing_if = "Option::is_none")]`: absent when unset,
never emitted as null. -/
def optField {α : Type} (key : String) (enc : α → Json) : Option α → List (String × Json)
  | none => []
  | some v => [(key, enc v)]

/-- Serialization of `CreateMessageParams` (derived `Serialize`, declaration
order `max_tokens`, `messages`, `model`, then the nine optional fields). -/
def serializeCreateMessageParams (p : CreateMessageParams) : Json :=
  .obj ([("max_tokens", Json.num (p.max_tokens : Rat)),
         ("messages", Json.arr (p.messages.map encodeMessage)),
         ("model", Json.str p.model)]
    ++ optField "system" Json.str p.system
    ++ optField "temperature" Json.num p.temperature
    ++ optField "stop_sequences" (fun xs => Json.arr (xs.map Json.str)) p.stop_sequences
    ++ optField "stream" Json.bool p.stream
    ++ optField "top_k" (fun n => Json.num (n : Rat)) p.top_k
    ++ optField "top_p" Json.num p.top_p
    ++ optField "tools" (fun ts => Json.arr (ts.map encodeTool)) p.tools
    ++ optField "tool_choice" encodeToolChoice p.tool_choice
    ++ optField "metadata" encodeMetadata p.metadata)

/-! ## Decoders (serde `Deserialize`, derived) -/

def decodeString : Json → Except DecodeError String
  | .str s => .ok s
  | _ => .error (.invalidType "a string")

/-- Look up a required struct field; a missing field is reported by name. -/
def requireField (kvs : List (String × Json)) (k : String) : Except DecodeError Json :=
  match jlookup kvs k with
  | some v => .ok v
  | none => .error (.missingField k)

/-- `Role`: `"user"` or `"assistant"`; any other string is an unknown variant. -/
def decodeRole : Json → Except DecodeError Role
  | .str s =>
      if s = "user" then .ok .User
      else if s = "assistant" then .ok .Assistant
      else .error (.unknownVariant s)
  | _ => .error (.invalidType "a string")

def decodeImageSource : Json → Except DecodeError ImageSource
  | .obj kvs => do
      let type_ ← requireField kvs "type" >>= decodeString
      let media_type ← requireField kvs "media_type" >>= decodeString
      let data ← requireField kvs "data" >>= decodeString
      return { type_ := type_, media_type := media_type, data := data }
  | _ => .error (.invalidType "a map")

/-- `ContentBlock`: read the `type` tag first, then dispatch to the matched
variant's field set; an unrecognized tag fails naming that tag, and a
recognized tag with a missing or mistyped required field fails naming the
field or the expected type.  Unknown extra fields are ignored (serde
default). -/
def decodeContentBlock : Json → Except DecodeError ContentBlock
  | .obj kvs => do
      let tag ← requireField kvs "type" >>= decodeString
      if tag = "text" then do
        let text ← requireField kvs "text" >>= decodeString
        return .Text text
      else if tag = "image" then do
        let source ← requireField kvs "source" >>= decodeImageSource
        return .Image source
      else if tag = "tool_use" then do
        let id ← requireField kvs "id" >>= decodeString
        let name ← requireField kvs "name" >>= decodeString
        let input ← requireField kvs "input"
        return .ToolUse id name input
      else if tag = "tool_result" then do
        let tool_use_id ← requireField kvs "tool_use_id" >>= decodeString
        let content ← requireField kvs "content" >>= decodeString
        return .ToolResult tool_use_id content
      else
        .error (.unknownVariant tag)
  | _ => .error (.invalidType "a map")

def decodeBlocks : List Json → Except DecodeError (List ContentBlock)
  | [] => .ok []
  | j :: rest => do
      let b ← decodeContentBlock j
      let bs ← decodeBlocks rest
      return b :: bs

/-- First untagged attempt: the `Text` struct variant `{ content: String }`.
serde's struct-variant deserializer from buffered content matches a map by
field name, and also a sequence positionally (one element per field; serde's
`SeqDeserializer::end` rejects missing or leftover elements). -/
def decodeTextVariant : Json → Except DecodeError MessageContent
  | .obj kvs => do
      let content ← requireField kvs "content" >>= decodeString
      return .Text content
  | .arr vs =>
      match vs with
      | [v] => do
          let content ← decodeString v
          return .Text content
      | _ => .error (.invalidType "a sequence of one element")
  | _ => .error (.invalidType "a map or sequence")

/-- Second untagged attempt: the `Blocks` struct variant
`{ content: Vec<ContentBlock> }`, with the same map-or-positional-sequence
matching as `decodeTextVariant`. -/
def decodeBlocksVariant : Json → Except DecodeError MessageContent
  | .obj kvs => do
      let v ← requireField kvs "content"
      match v with
      | .arr xs => do
          let bs ← decodeBlocks xs
          return .Blocks bs
      | _ => .error (.invalidType "a sequence")
  | .arr vs =>
      match vs with
      | [v] =>
          match v with
          | .arr xs => do
              let bs ← decodeBlocks xs
              return .Blocks bs
          | _ => .error (.invalidType "a sequence")
      | _ => .error (.invalidType "a sequence of one element")
  | _ => .error (.invalidType "a map or sequence")

/-- `MessageContent` is `#[serde(untagged)]`: try each variant in declaration
order and keep the first that matches; when none matches, serde reports a
generic error naming the untagged enum (the per-variant errors are
discarded). -/
def decodeMessageContent (j : Json) : Except DecodeError MessageContent :=
  match decodeTextVariant j with
  | .ok c => .ok c
  | .error _ =>
      match decodeBlocksVariant j with
      | .ok c => .ok c
      | .error _ => .error (.untaggedNoMatch "MessageContent")

/-- `Message` with `#[serde(flatten)] content`: the known field `role` is
consumed, and every remaining entry is collected into a map that is then
deserialized as `MessageContent`. -/
def decodeMessage : Json → Except DecodeError Message
  | .obj kvs => do
      let role ← requireField kvs "role" >>= decodeRole
      let content ← decodeMessageContent (.obj (kvs.filter (fun kv => kv.1 != "role")))
      return { role := role, content := content }
  | _ => .error (.invalidType "a map")

def decodeStopReason : Json → Except DecodeError StopReason
  | .str s =>
      if s = "end_turn" then .ok .EndTurn
      else if s = "max_tokens" then .ok .MaxTokens
      else if s = "stop_sequence" then .ok .StopSequence
      else if s = "tool_use" then .ok .ToolUse
      else .error (.unknownVariant s)
  | _ => .error (.invalidType "a string")

/-- `u32`: a JSON number that is a non-negative integer below `2^32`. -/
def decodeU32 (j : Json) : Except DecodeError Nat :=
  match j with
  | .num q =>
      if q.den = 1 ∧ 0 ≤ q.num ∧ q.num < 2 ^ 32 then .ok q.num.toNat
      else .error (.invalidType "u32")
  | _ => .error (.invalidType "u32")

/-- An `Option<T>` struct field: absent or `null` decodes to `None`
(serde's default handling of `Option`). -/
def optionalField {α : Type} (dec : Json → Except DecodeError α)
    (kvs : List (String × Json)) (k : String) : Except DecodeError (Option α) :=
  match jlookup kvs k with
  | none => .ok none
  | some .null => .ok none
  | some v => do
      let a ← dec v
      return some a

def decodeUsage : Json → Except DecodeError Usage
  | .obj kvs => do
      let input_tokens ← requireField kvs "input_tokens" >>= decodeU32
      let output_tokens ← requireField kvs "output_tokens" >>= decodeU32
      return { input_tokens := input_tokens, output_tokens := output_tokens }
  | _ => .error (.invalidType "a map")

/-- `CreateMessageResponse` (derived `Deserialize`): all fields required
except the two `Option` fields; `role` decoded exactly as `Role`, with no
extra constraint that it be `Assistant`. -/
def decodeCreateMessageResponse : Json → Except DecodeError CreateMessageResponse
  | .obj kvs => do
      let content ← requireField kvs "content" >>= fun v =>
        match v with
        | .arr xs => decodeBlocks xs
        | _ => .error (.invalidType "a sequence")
      let id ← requireField kvs "id" >>= decodeString
      let model ← requireField kvs "model" >>= decodeString
      let role ← requireField kvs "role" >>= decodeRole
      let stop_reason ← optionalField decodeStopReason kvs "stop_reason"
      let stop_sequence ← optionalField decodeString kvs "stop_sequence"
      let type_ ← requireField kvs "type" >>= decodeString
      let usage ← requireField kvs "usage" >>= decodeUsage
      return { content := content, id := id, model := model, role := role,
               stop_reason := stop_reason, stop_sequence := stop_sequence,
               type_ := type_, usage := usage }
  | _ => .error (.invalidType "a map")

/-! ## Concrete inputs used by individual properties -/

/-- A request whose `Metadata` holds the single entry `trace` bound to `42`. -/
def metadataTraceParams : CreateMessageParams :=
  (CreateMessageParams.fromRequired
    { model := "m", messages := [], max_tokens := 1 }).with_metadata
    { fields := [("trace", "42")] }

/-- A `CreateMessageResponse` wire object, well-formed in every field, with
the `role` string left as a parameter. -/
def responseWithRole (r : String) : Json :=
  .obj [("content", .arr []),
        ("id", .str "msg_1"),
        ("model", .str "m"),
        ("role", .str r),
        ("stop_reason", .null),
        ("stop_sequence", .null),
        ("type", .str "message"),
        ("usage", .obj [("input_tokens", .num 1), ("output_tokens", .num 2)])]

/-! ## Helper lemmas -/

theorem except_ok_bind {ε α β : Type} (a : α) (f : α → Except ε β) :
    (Except.ok a >>= f : Except ε β) = f a := rfl

theorem except_error_bind {ε α β : Type} (err : ε) (f : α → Except ε β) :
    (Except.error err >>= f : Except ε β) = .error err := rfl

theorem except_pure {ε α : Type} (a : α) : (pure a : Except ε α) = Except.ok a := rfl

/-- Decoding inverts encoding for every single content block. -/
theorem decode_encode_contentBlock (b : ContentBlock) :
    decodeContentBlock (encodeContentBlock b) = .ok b := by
  cases b <;> rfl

/-- Decoding inverts encoding elementwise on lists of content blocks. -/
theorem decodeBlocks_encodeList (bs : List ContentBlock) :
    decodeBlocks (bs.map encodeContentBlock) = .ok bs := by
  induction bs with
  | nil => rfl
  | cons b rest ih =>
      simp only [List.map_cons, decodeBlocks, decode_encode_contentBlock, ih, except_ok_bind,
        except_pure]

/-- The untagged decoder inverts `messageContentFields` on the map it
contributes. -/
theorem decodeMessageContent_fields (c : MessageContent) :
    decodeMessageContent (.obj (messageContentFields c)) = .ok c := by
  cases c with
  | Text content => rfl
  | Blocks content =>
      simp [messageContentFields, decodeMessageContent, decodeTextVariant, decodeBlocksVariant,
        requireField, jlookup, decodeString, decodeBlocks_encodeList, except_ok_bind,
        except_error_bind, except_pure]

/-- Decoding inverts encoding for every `Message`. -/
theorem decodeMessage_encodeMessage (m : Message) :
    decodeMessage (encodeMessage m) = .ok m := by
  obtain ⟨r, c⟩ := m
  cases c with
  | Text content => cases r <;> rfl
  | Blocks content =>
      cases r <;>
        simp [encodeMessage, messageContentFields, decodeMessage, requireField, jlookup,
          encodeRole, decodeRole, decodeMessageContent, decodeTextVariant, decodeBlocksVariant,
          decodeString, decodeBlocks_encodeList, except_ok_bind, except_error_bind, except_pure]

/-! ## Claim theorems -/

/-- C1 (counterexample): the claim as stated is false at two of its own
concrete inputs.  `MessageContent` is an untagged union of *struct*
variants, so its deserializer matches a map carrying a `content` field, or a
sequence positionally: the bare JSON string `"hello"` does not decode to
`Text`, and the bare array holding one tagged text-block object does not
decode to `Blocks` (its single element is neither a string for `Text` nor an
array for `Blocks`) — both fail with the untagged no-match error. -/
theorem c1_counterexample_bare_string_fails :
    decodeMessageContent (.str "hello") ≠ Except.ok (MessageContent.Text "hello") ∧
    decodeMessageContent (.str "hello") = .error (.untaggedNoMatch "MessageContent") ∧
    decodeMessageContent (.arr [.obj [("type", .str "text"), ("text", .str "hi")]]) ≠
      Except.ok (MessageContent.Blocks [.Text "hi"]) ∧
    decodeMessageContent (.arr [.obj [("type", .str "text"), ("text", .str "hi")]]) =
      .error (.untaggedNoMatch "MessageContent") :=
  ⟨fun h => Except.noConfusion h, rfl, fun h => Except.noConfusion h, rfl⟩

/-- C1 (amended): decoding message content dispatches on the JSON structural
type of the value bound to the `content` key of a JSON object (the shape the
flatten contract puts on the wire): a string there decodes to `Text`, an
array decodes to `Blocks` with each element decoded as a `ContentBlock`, and
any other shape for that value fails to decode.  Bare (non-object) inputs
are not dispatched this way: the bare string `"hello"`, the bare number
`42`, bare null, and the claim's bare array holding one tagged block object
all fail to decode, while a bare one-element sequence is matched
positionally against the single `content` field (serde's struct-from-seq
form), so the bare array of one string decodes to `Text` holding that
string and the bare array of one array of tagged block objects decodes to
`Blocks`. -/
theorem c1_message_content_structural_dispatch :
    (∀ s, decodeMessageContent (.obj [("content", .str s)]) = .ok (.Text s)) ∧
    (∀ bs : List ContentBlock,
      decodeMessageContent (.obj [("content", .arr (bs.map encodeContentBlock))]) =
        .ok (.Blocks bs)) ∧
    decodeMessageContent (.obj [("content", .arr [.obj [("type", .str "text"),
      ("text", .str "hi")]])]) = .ok (.Blocks [.Text "hi"]) ∧
    (∀ q : Rat, decodeMessageContent (.obj [("content", .num q)]) =
      .error (.untaggedNoMatch "MessageContent")) ∧
    decodeMessageContent (.obj [("content", .null)]) =
      .error (.untaggedNoMatch "MessageContent") ∧
    decodeMessageContent (.num 42) = .error (.untaggedNoMatch "MessageContent") ∧
    decodeMessageContent .null = .error (.untaggedNoMatch "MessageContent") ∧
    decodeMessageContent (.arr [.obj [("type", .str "text"), ("text", .str "hi")]]) =
      .error (.untaggedNoMatch "MessageContent") ∧
    (∀ s, decodeMessageContent (.arr [.str s]) = .ok (.Text s)) ∧
    decodeMessageContent (.arr [.arr [.obj [("type", .str "text"), ("text", .str "hi")]]]) =
      .ok (.Blocks [.Text "hi"]) := by
  refine ⟨fun s => rfl, fun bs => ?_, rfl, fun q => rfl, rfl, rfl, rfl, rfl, fun s => rfl, rfl⟩
  exact decodeMessageContent_fields (.Blocks bs)

/-- C2 (counterexample): the claim as stated is false at the concrete request
`metadataTraceParams`: its serialization has no top-level `trace` key — the
`Metadata` entries sit flattened inside the object bound to the `metadata`
key, not merged into the request object. -/
theorem c2_counterexample_no_top_level_trace_key :
    Json.getKey (serializeCreateMessageParams metadataTraceParams) "trace" = none ∧
    Json.getKey (serializeCreateMessageParams metadataTraceParams) "metadata" =
      some (.obj [("trace", .str "42")]) :=
  ⟨rfl, rfl⟩

/-- C2 (amended): every `Metadata` entry is merged flat into the *Metadata*
object at serialization time (no nested `fields` wrapper key), and that
object is serialized under the request's `metadata` key: a request with
metadata fields `trace` bound to `42` serializes with the key `metadata`
bound to an object whose single entry is `trace` bound to `42`. -/
theorem c2_metadata_flat_under_metadata_key (required : RequiredMessageParams) (md : Metadata) :
    serializeCreateMessageParams
      ((CreateMessageParams.fromRequired required).with_metadata md) =
      Json.obj [("max_tokens", Json.num (required.max_tokens : Rat)),
                ("messages", Json.arr (required.messages.map encodeMessage)),
                ("model", Json.str required.model),
                ("metadata", Json.obj (md.fields.map (fun kv => (kv.1, Json.str kv.2))))] :=
  rfl

/-- C3: every decode-time failure (unrecognized tag, JSON-type mismatch in
the untagged union, missing required field) is reported as a `DecodeError`
whose kind differs from the kind of every `MessageError` — so it is
distinguishable from both `RequestFailed` and `ApiError` — and the error
value carries the offending tag or field name. -/
theorem c3_decode_failures_distinct_and_carry_context :
    (∀ e : DecodeError, ∀ me : MessageError,
      (DecodeError.kind e == MessageError.kind me) = false) ∧
    decodeContentBlock (.obj [("type", .str "bogus")]) =
      .error (.unknownVariant "bogus") ∧
    decodeContentBlock (.obj [("type", .str "tool_use"), ("id", .str "i"),
      ("name", .str "n")]) = .error (.missingField "input") ∧
    decodeMessageContent (.num 42) = .error (.untaggedNoMatch "MessageContent") := by
  refine ⟨fun e me => ?_, rfl, rfl, rfl⟩
  cases me <;> rfl

/-- C4: encode-then-decode is the identity on every constructible `Message`
(both roles; content either `Text` — including the empty string — or
`Blocks` — including the empty list and every mix of the four block
variants, with arbitrary nested JSON in `ToolUse.input`).  Empty `Blocks`
and empty-string `Text` contribute distinct wire fields (an empty array
versus an empty string under `content`), so the round trip never confuses
them. -/
theorem c4_message_encode_decode_roundtrip :
    (∀ m : Message, decodeMessage (encodeMessage m) = Except.ok m) ∧
    messageContentFields (MessageContent.Blocks []) = [("content", Json.arr [])] ∧
    messageContentFields (MessageContent.Text "") = [("content", Json.str "")] :=
  ⟨decodeMessage_encodeMessage, rfl, rfl⟩

/-- C5: a `CreateMessageParams` built from a `RequiredMessageParams` alone
serializes to an object with exactly the keys `max_tokens`, `messages` and
`model` — all nine optional fields are unset and contribute no key at all
(never a null). -/
theorem c5_required_only_params_serialize_exactly_required_keys
    (required : RequiredMessageParams) :
    serializeCreateMessageParams (CreateMessageParams.fromRequired required) =
      Json.obj [("max_tokens", Json.num (required.max_tokens : Rat)),
                ("messages", Json.arr (required.messages.map encodeMessage)),
                ("model", Json.str required.model)] ∧
    (serializeCreateMessageParams (CreateMessageParams.fromRequired required)).keys =
      ["max_tokens", "messages", "model"] :=
  ⟨rfl, rfl⟩

/-- C6: the `ContentBlock` decoder reads the `type` tag and dispatches:
the tool-result example decodes to `ToolResult`; any tag outside the four
recognized strings fails naming that tag (`"bogus"` in particular); a
recognized tag with a missing required field fails naming the field, and a
mistyped required field fails with a type error. -/
theorem c6_content_block_tag_dispatch :
    decodeContentBlock (.obj [("type", .str "tool_result"), ("tool_use_id", .str "abc"),
      ("content", .str "ok")]) = .ok (.ToolResult "abc" "ok") ∧
    decodeContentBlock (.obj [("type", .str "bogus")]) =
      .error (.unknownVariant "bogus") ∧
    (∀ t, t ≠ "text" → t ≠ "image" → t ≠ "tool_use" → t ≠ "tool_result" →
      decodeContentBlock (.obj [("type", .str t)]) = .error (.unknownVariant t)) ∧
    decodeContentBlock (.obj [("type", .str "text")]) = .error (.missingField "text") ∧
    decodeContentBlock (.obj [("type", .str "text"), ("text", .num 1)]) =
      .error (.invalidType "a string") := by
  refine ⟨rfl, rfl, fun t h1 h2 h3 h4 => ?_, rfl, rfl⟩
  simp [decodeContentBlock, requireField, jlookup, decodeString, h1, h2, h3, h4,
    except_ok_bind, except_error_bind, except_pure]

/-- C6 (witness): the general unknown-tag clause applied at the concrete tag
`"zzz"`. -/
theorem c6_content_block_tag_dispatch_witness :
    decodeContentBlock (.obj [("type", .str "zzz")]) = .error (.unknownVariant "zzz") :=
  c6_content_block_tag_dispatch.2.2.1 "zzz" (by decide) (by decide) (by decide) (by decide)

/-- C7: the required-fields-only request with model `claude-3`, the single
user text message `hi` and max_tokens 10 serializes to exactly the object
with the three keys `max_tokens`, `messages`, `model` (serde emits struct
fields in declaration order; as a key-value set this is the claim's object):
the message object merges the content directly (`content` bound to the bare
string `hi`, no nested wrapper) and the role is the lowercase `user`. -/
theorem c7_end_to_end_required_request_serialization :
    serializeCreateMessageParams (CreateMessageParams.new
      { model := "claude-3", messages := [Message.new_text .User "hi"], max_tokens := 10 }) =
      Json.obj [("max_tokens", Json.num 10),
                ("messages", Json.arr [.obj [("role", .str "user"), ("content", .str "hi")]]),
                ("model", Json.str "claude-3")] :=
  rfl

/-- C8: repeated calls of `with_temperature` on the same builder chain
overwrite the previously set value: for every builder and every pair of
values, the second call wins. -/
theorem c8_with_temperature_overwrites (b : CreateMessageParams) (x y : Rat) :
    ((b.with_temperature x).with_temperature y).temperature = some y :=
  rfl

/-- C9: converting a plain string into a `MessageError` always yields
`ApiError` holding that string, and the result never compares equal to any
`RequestFailed` value. -/
theorem c9_string_coerces_to_api_error :
    (∀ s, MessageError.fromString s = MessageError.ApiError s) ∧
    (∀ s t, (MessageError.fromString s == MessageError.RequestFailed t) = false) :=
  ⟨fun _ => rfl, fun _ _ => rfl⟩

/-- C10: the response decoder does not force the role to be `Assistant` —
a well-formed response whose role string is `"user"` decodes successfully
with role `User` (and `"assistant"` with role `Assistant`); with every other
field well-formed, decoding fails exactly when the role string is neither,
naming the offending string. -/
theorem c10_response_role_not_restricted_to_assistant :
    decodeCreateMessageResponse (responseWithRole "user") =
      .ok { content := [], id := "msg_1", model := "m", role := .User,
            stop_reason := none, stop_sequence := none, type_ := "message",
            usage := { input_tokens := 1, output_tokens := 2 } } ∧
    decodeCreateMessageResponse (responseWithRole "assistant") =
      .ok { content := [], id := "msg_1", model := "m", role := .Assistant,
            stop_reason := none, stop_sequence := none, type_ := "message",
            usage := { input_tokens := 1, output_tokens := 2 } } ∧
    (∀ r, r ≠ "user" → r ≠ "assistant" →
      decodeCreateMessageResponse (responseWithRole r) = .error (.unknownVariant r)) := by
  refine ⟨rfl, rfl, fun r h1 h2 => ?_⟩
  simp [responseWithRole, decodeCreateMessageResponse, requireField, jlookup, decodeString,
    decodeRole, decodeBlocks, optionalField, decodeUsage, decodeU32, h1, h2,
    except_ok_bind, except_error_bind, except_pure]

/-- C10 (witness): the failure clause applied at the concrete role string
`"bogus"`. -/
theorem c10_response_role_not_restricted_to_assistant_witness :
    decodeCreateMessageResponse (responseWithRole "bogus") =
      .error (.unknownVariant "bogus") :=
  c10_response_role_not_restricted_to_assistant.2.2 "bogus" (by decide) (by decide)

end AnthropicSdk
